import Mathlib

/-!
Shallow embedding of the live-entity registry core (`src/src/player.rs`).

Machine integers (`u32`) are modelled as `Nat`; the one place the code does
arithmetic on a `u32` (`GameInfo.next_cycle` incrementing `last_seen`) applies
the wrap-around `% 2 ^ 32` of release-mode Rust. The 64-bit identity key
(`SteamID`) is modelled as `Nat`; only its equality is used by this core.
Shared immutable strings (`Arc<str>`) are `String`; `serde_json::Value` is the
`JsonValue` inductive below, which the core only copies wholesale.
-/

/-- Modelled from the spec: the free-form annotation payload is an arbitrary
externally-defined JSON-like structured value (`serde_json::Value`, declared
outside `src/`); the core never introspects it, only copies or replaces it. -/
inductive JsonValue where
  | null
  | bool (b : Bool)
  | num (n : Int)
  | str (s : String)
  | arr (elems : List JsonValue)
  | obj (fields : List (String × JsonValue))

/-- Modelled from the spec: `player_records::Verdict` is declared outside
`src/`. The spec fixes only the neutral default `Player`; the other variants
stand in for the unspecified classifications of the closed enumeration. -/
inductive Verdict where
  | Player
  | Suspicious
  | Cheater
  deriving DecidableEq

/-- `PlayerState` from `src/src/player.rs`. -/
inductive PlayerState where
  | Active
  | Spawning
  | Disconnected
  deriving DecidableEq

/-- `Team` from `src/src/player.rs` with discriminants 0..3. -/
inductive Team where
  | Unassigned
  | Spectators
  | Red
  | Blu
  deriving DecidableEq

/-- The declared integer encoding of `Team` (`*self as u32` in its
`Serialize` impl). -/
def Team.toU32 : Team → Nat
  | Team.Unassigned => 0
  | Team.Spectators => 1
  | Team.Red => 2
  | Team.Blu => 3

/-- `impl TryFrom<u32> for Team`: strict decoding, out-of-range is an error. -/
def Team.try_from (val : Nat) : Except String Team :=
  if val = 0 then Except.ok Team.Unassigned
  else if val = 1 then Except.ok Team.Spectators
  else if val = 2 then Except.ok Team.Red
  else if val = 3 then Except.ok Team.Blu
  else Except.error "Not a valid team value"

/-- `ProfileVisibility` from `src/src/player.rs` with discriminants 1..3. -/
inductive ProfileVisibility where
  | Private
  | FriendsOnly
  | Public
  deriving DecidableEq

/-- The declared integer encoding of `ProfileVisibility` (its discriminants). -/
def ProfileVisibility.encoding : ProfileVisibility → Int
  | ProfileVisibility.Private => 1
  | ProfileVisibility.FriendsOnly => 2
  | ProfileVisibility.Public => 3

/-- `impl From<i32> for ProfileVisibility`: defaulting decoding, out-of-range
falls back to `Private`. -/
def ProfileVisibility.fromInt (value : Int) : ProfileVisibility :=
  if value = 1 then ProfileVisibility.Private
  else if value = 2 then ProfileVisibility.FriendsOnly
  else if value = 3 then ProfileVisibility.Public
  else ProfileVisibility.Private

/-- `SteamInfo` from `src/src/player.rs`: the optional reputation snapshot,
attached and replaced wholesale. -/
structure SteamInfo where
  account_name : String
  profile_url : String
  pfp_url : String
  pfp_hash : String
  profile_visibility : ProfileVisibility
  time_created : Option Int
  country_code : Option String
  vac_bans : Int
  game_bans : Int
  days_since_last_ban : Option Int

/-- Modelled from the spec: `player_records::PlayerRecord` is declared outside
`src/`. Per the spec, a moderation record is the tuple (identity key, free-form
annotation payload, verdict classification, prior-name history); the field
names follow their uses in `src/src/player.rs`. -/
structure PlayerRecord where
  steamid : Nat
  custom_data : JsonValue
  verdict : Verdict
  previous_names : List String

/-- Modelled from the spec: `io::regexes::StatusLine` is declared outside
`src/`. Per the spec, the line-based observation always carries identity key,
display name, session token, elapsed time, latency, loss and a PresenceState;
the field names follow their uses in `src/src/player.rs`. -/
structure StatusLine where
  steamid : Nat
  name : String
  userid : String
  time : Nat
  ping : Nat
  loss : Nat
  state : PlayerState

/-- Modelled from the spec: `io::g15::G15Player` is declared outside `src/`.
Per the spec, every field of the dump-based observation is optional; the field
names follow their uses in `src/src/player.rs`. -/
structure G15Player where
  steamid : Option Nat
  name : Option String
  userid : Option String
  team : Option Team
  ping : Option Nat
  score : Option Nat
  deaths : Option Nat

/-- `GameInfo` from `src/src/player.rs`; `last_seen` is the internal staleness
counter (cycles since the player was last seen). -/
structure GameInfo where
  userid : String
  team : Team
  time : Nat
  ping : Nat
  loss : Nat
  state : PlayerState
  kills : Nat
  deaths : Nat
  last_seen : Nat

/-- `GameInfo::new_from_g15`: fails when the session token is absent; team,
latency, kills and deaths default when absent; time and loss are fixed at 0;
state is fixed to `Active`. -/
def GameInfo.new_from_g15 (g15 : G15Player) : Option GameInfo :=
  match g15.userid with
  | none => none
  | some userid =>
    some { userid := userid
           team := g15.team.getD Team.Unassigned
           time := 0
           ping := g15.ping.getD 0
           loss := 0
           state := PlayerState.Active
           kills := g15.score.getD 0
           deaths := g15.deaths.getD 0
           last_seen := 0 }

/-- `GameInfo::new_from_status`: always succeeds; team is unknown from this
source, kills and deaths start at 0. -/
def GameInfo.new_from_status (status : StatusLine) : GameInfo :=
  { userid := status.userid
    team := Team.Unassigned
    time := status.time
    ping := status.ping
    loss := status.loss
    state := status.state
    kills := 0
    deaths := 0
    last_seen := 0 }

/-- `GameInfo::next_cycle`: increment the staleness counter (a `u32`, hence
the wrap `% 2 ^ 32`); if it exceeds `DISCONNECTED_THRESHOLD = 1` force the
state to `Disconnected`. -/
def GameInfo.next_cycle (gi : GameInfo) : GameInfo :=
  let ls := (gi.last_seen + 1) % 2 ^ 32
  { gi with last_seen := ls
            state := if 1 < ls then PlayerState.Disconnected else gi.state }

/-- `GameInfo::acknowledge`: reset the staleness counter; a `Disconnected`
entity moves to `Spawning`. -/
def GameInfo.acknowledge (gi : GameInfo) : GameInfo :=
  { gi with last_seen := 0
            state := if gi.state = PlayerState.Disconnected
                     then PlayerState.Spawning else gi.state }

/-- `GameInfo::should_prune`: true iff the staleness counter exceeds
`CYCLE_LIMIT = 5`. -/
def GameInfo.should_prune (gi : GameInfo) : Bool :=
  decide (5 < gi.last_seen)

/-- `Player` from `src/src/player.rs`: the canonical per-identity aggregate. -/
structure Player where
  name : String
  steamid : Nat
  is_self : Bool
  game_info : GameInfo
  steam_info : Option SteamInfo
  custom_data : JsonValue
  tags : List String
  local_verdict : Verdict
  convicted : Bool
  previous_names : List String

/-- `Player::new_from_status`: total constructor from a line observation. -/
def Player.new_from_status (status : StatusLine) (user : Option Nat) : Player :=
  { name := status.name
    steamid := status.steamid
    is_self := (user.map (fun u => u == status.steamid)).getD false
    game_info := GameInfo.new_from_status status
    steam_info := none
    custom_data := JsonValue.obj []
    tags := []
    local_verdict := Verdict.Player
    convicted := false
    previous_names := [] }

/-- `Player::new_from_g15`: fails (returns `none`) when the identity key, the
session token (via `GameInfo::new_from_g15`) or the display name is absent;
each `match` mirrors one `?` of the source. -/
def Player.new_from_g15 (g15 : G15Player) (user : Option Nat) : Option Player :=
  match g15.steamid with
  | none => none
  | some steamid =>
    match GameInfo.new_from_g15 g15 with
    | none => none
    | some game_info =>
      match g15.name with
      | none => none
      | some name =>
        some { name := name
               steamid := steamid
               is_self := (user.map (fun u => u == steamid)).getD false
               game_info := game_info
               steam_info := none
               custom_data := JsonValue.obj []
               tags := []
               local_verdict := Verdict.Player
               convicted := false
               previous_names := [] }

/-- `Player::update_from_record`: on an identity mismatch the source logs an
error and returns without mutating; the returned `Bool` records whether that
error branch was taken. On match exactly three fields are overwritten. -/
def Player.update_from_record (p : Player) (record : PlayerRecord) :
    Player × Bool :=
  if record.steamid ≠ p.steamid then
    (p, true)
  else
    ({ p with custom_data := record.custom_data
              local_verdict := record.verdict
              previous_names := record.previous_names }, false)

/-- `Player::get_record`: project the player to a moderation record. -/
def Player.get_record (p : Player) : PlayerRecord :=
  { steamid := p.steamid
    custom_data := p.custom_data
    verdict := p.local_verdict
    previous_names := p.previous_names }

/-- The session-presence states produced by either constructor and closed
under `next_cycle` and `acknowledge`. -/
inductive GameInfo.Reachable : GameInfo → Prop where
  | from_g15 (g15 : G15Player) (gi : GameInfo) :
      GameInfo.new_from_g15 g15 = some gi → GameInfo.Reachable gi
  | from_status (status : StatusLine) :
      GameInfo.Reachable (GameInfo.new_from_status status)
  | next (gi : GameInfo) : GameInfo.Reachable gi →
      GameInfo.Reachable gi.next_cycle
  | ack (gi : GameInfo) : GameInfo.Reachable gi →
      GameInfo.Reachable gi.acknowledge

/-- Sample line observation, used by concrete witnesses. -/
def stA : StatusLine :=
  { steamid := 11, name := "alpha", userid := "2", time := 100, ping := 30,
    loss := 1, state := PlayerState.Active }

/-- Sample player built from `stA`, used by concrete witnesses. -/
def pA : Player := Player.new_from_status stA none

/-- Sample record whose identity key differs from `pA`. -/
def recB : PlayerRecord :=
  { steamid := 22, custom_data := JsonValue.str "note",
    verdict := Verdict.Cheater, previous_names := ["old"] }

/-- Sample record whose identity key matches `pA`. -/
def recC : PlayerRecord :=
  { steamid := 11, custom_data := JsonValue.str "ok",
    verdict := Verdict.Suspicious, previous_names := ["x", "y"] }

/-- Sample session presence with staleness counter 0, used by witnesses. -/
def giA : GameInfo :=
  { userid := "5", team := Team.Unassigned, time := 0, ping := 0, loss := 0,
    state := PlayerState.Active, kills := 0, deaths := 0, last_seen := 0 }

/-- Session presence whose `u32` staleness counter is at its maximum. -/
def giOverflow : GameInfo :=
  { userid := "7", team := Team.Unassigned, time := 0, ping := 0, loss := 0,
    state := PlayerState.Active, kills := 0, deaths := 0,
    last_seen := 2 ^ 32 - 1 }

theorem GameInfo.next_cycle_last_seen (gi : GameInfo)
    (h : gi.last_seen + 1 < 2 ^ 32) :
    gi.next_cycle.last_seen = gi.last_seen + 1 := by
  simp only [GameInfo.next_cycle]
  exact Nat.mod_eq_of_lt h

theorem GameInfo.next_cycle_iter (k : Nat) (gi : GameInfo)
    (h : gi.last_seen + k < 2 ^ 32) :
    (GameInfo.next_cycle^[k] gi).last_seen = gi.last_seen + k := by
  induction k generalizing gi with
  | zero => simp
  | succ n ih =>
    have h1 : gi.last_seen + 1 < 2 ^ 32 := by omega
    have hstep : gi.next_cycle.last_seen = gi.last_seen + 1 :=
      GameInfo.next_cycle_last_seen gi h1
    rw [Function.iterate_succ_apply, ih gi.next_cycle (by omega)]
    omega

/-- C1 (counterexample): `next_cycle` does not always increment the staleness
counter by 1 — at the maximum `u32` value the counter wraps to 0, a decrease. -/
theorem C1_counterexample :
    giOverflow.next_cycle.last_seen = 0
  ∧ giOverflow.next_cycle.last_seen < giOverflow.last_seen := by
  constructor
  · simp only [giOverflow, GameInfo.next_cycle]
    norm_num
  · simp only [giOverflow, GameInfo.next_cycle]
    norm_num

/-- C1 (amended): provided the staleness counter does not overflow its `u32`
(`last_seen + 1 < 2 ^ 32`), `next_cycle` increments the counter by exactly 1
and never decreases it, sets the state to `Disconnected` exactly when the
incremented counter exceeds 1 and leaves it unchanged otherwise, never
transitions out of `Disconnected`, and from counter 0 two consecutive calls
leave the state unchanged on the first call and force `Disconnected` on the
second. -/
theorem C1_next_cycle (gi : GameInfo) (h : gi.last_seen + 1 < 2 ^ 32) :
    gi.next_cycle.last_seen = gi.last_seen + 1
  ∧ gi.last_seen ≤ gi.next_cycle.last_seen
  ∧ (1 < gi.next_cycle.last_seen →
      gi.next_cycle.state = PlayerState.Disconnected)
  ∧ (gi.next_cycle.last_seen ≤ 1 → gi.next_cycle.state = gi.state)
  ∧ (gi.state = PlayerState.Disconnected →
      gi.next_cycle.state = PlayerState.Disconnected)
  ∧ (gi.last_seen = 0 →
      gi.next_cycle.state = gi.state
    ∧ gi.next_cycle.next_cycle.state = PlayerState.Disconnected) := by
  have hmod : (gi.last_seen + 1) % 2 ^ 32 = gi.last_seen + 1 :=
    Nat.mod_eq_of_lt h
  refine ⟨?_, ?_, ?_, ?_, ?_, ?_⟩
  · simp only [GameInfo.next_cycle]
    exact hmod
  · simp only [GameInfo.next_cycle, hmod]
    omega
  · intro hgt
    simp only [GameInfo.next_cycle, hmod] at hgt ⊢
    rw [if_pos hgt]
  · intro hle
    simp only [GameInfo.next_cycle, hmod] at hle ⊢
    rw [if_neg (by omega)]
  · intro hd
    simp only [GameInfo.next_cycle, hmod, hd]
    split <;> rfl
  · intro h0
    constructor
    · simp only [GameInfo.next_cycle, hmod, h0]
      norm_num
    · simp only [GameInfo.next_cycle, h0]
      norm_num

/-- C1 (witness): the amended theorem at the concrete presence `giA`. -/
theorem C1_witness :
    giA.last_seen + 1 < 2 ^ 32
  ∧ giA.next_cycle.last_seen = giA.last_seen + 1
  ∧ giA.next_cycle.next_cycle.state = PlayerState.Disconnected := by
  have h : giA.last_seen + 1 < 2 ^ 32 := by norm_num [giA]
  have h0 : giA.last_seen = 0 := rfl
  exact ⟨h, (C1_next_cycle giA h).1, ((C1_next_cycle giA h).2.2.2.2.2 h0).2⟩

/-- C2: `acknowledge` resets the staleness counter to 0, moves `Disconnected`
to `Spawning` (never directly to `Active`), leaves `Active` and `Spawning`
unchanged, and is idempotent. -/
theorem C2_acknowledge (gi : GameInfo) :
    gi.acknowledge.last_seen = 0
  ∧ (gi.state = PlayerState.Disconnected →
      gi.acknowledge.state = PlayerState.Spawning)
  ∧ (gi.state = PlayerState.Active ∨ gi.state = PlayerState.Spawning →
      gi.acknowledge.state = gi.state)
  ∧ gi.acknowledge.acknowledge = gi.acknowledge := by
  rcases gi with ⟨u, t, ti, pg, lo, st, k, d, ls⟩
  cases st <;> simp [GameInfo.acknowledge]

/-- C3: `should_prune` is true iff the staleness counter strictly exceeds 5;
starting from counter 0, it is false after each of the first 5 `next_cycle`
calls and true after the 6th. -/
theorem C3_should_prune (gi : GameInfo) :
    (gi.should_prune = true ↔ 5 < gi.last_seen)
  ∧ (gi.last_seen = 0 →
      (∀ k, 1 ≤ k → k ≤ 5 →
        (GameInfo.next_cycle^[k] gi).should_prune = false)
    ∧ (GameInfo.next_cycle^[6] gi).should_prune = true) := by
  constructor
  · simp [GameInfo.should_prune]
  · intro h0
    constructor
    · intro k h1 h5
      have hk : (GameInfo.next_cycle^[k] gi).last_seen = gi.last_seen + k :=
        GameInfo.next_cycle_iter k gi (by omega)
      simp only [GameInfo.should_prune, hk, h0]
      simp
      omega
    · have hk : (GameInfo.next_cycle^[6] gi).last_seen = gi.last_seen + 6 :=
        GameInfo.next_cycle_iter 6 gi (by omega)
      simp only [GameInfo.should_prune, hk, h0]
      simp

/-- C4: merging a record whose identity key differs from the player leaves
every field of the player unchanged and takes the logged-error branch. -/
theorem C4_merge_mismatch (p : Player) (r : PlayerRecord)
    (h : r.steamid ≠ p.steamid) :
    (p.update_from_record r).1 = p ∧ (p.update_from_record r).2 = true := by
  unfold Player.update_from_record
  rw [if_pos h]
  exact ⟨rfl, rfl⟩

/-- C4 (witness): the mismatch theorem at the concrete pair `pA`, `recB`. -/
theorem C4_witness :
    recB.steamid ≠ pA.steamid ∧ (pA.update_from_record recB).1 = pA :=
  ⟨by decide, (C4_merge_mismatch pA recB (by decide)).1⟩

/-- C5: merging a record whose identity key matches overwrites exactly the
annotation payload, the verdict and the prior-name list with the record
values, and leaves every other field of the player unchanged. -/
theorem C5_merge_match (p : Player) (r : PlayerRecord)
    (h : r.steamid = p.steamid) :
    (p.update_from_record r).1.custom_data = r.custom_data
  ∧ (p.update_from_record r).1.local_verdict = r.verdict
  ∧ (p.update_from_record r).1.previous_names = r.previous_names
  ∧ (p.update_from_record r).1.steamid = p.steamid
  ∧ (p.update_from_record r).1.name = p.name
  ∧ (p.update_from_record r).1.is_self = p.is_self
  ∧ (p.update_from_record r).1.game_info = p.game_info
  ∧ (p.update_from_record r).1.steam_info = p.steam_info
  ∧ (p.update_from_record r).1.tags = p.tags
  ∧ (p.update_from_record r).1.convicted = p.convicted := by
  unfold Player.update_from_record
  rw [if_neg (by simp [h])]
  exact ⟨rfl, rfl, rfl, rfl, rfl, rfl, rfl, rfl, rfl, rfl⟩

/-- C5 (witness): the matching-merge theorem at the concrete pair `pA`,
`recC`: the verdict is overwritten, the session presence untouched. -/
theorem C5_witness :
    recC.steamid = pA.steamid
  ∧ (pA.update_from_record recC).1.local_verdict = recC.verdict
  ∧ (pA.update_from_record recC).1.game_info = pA.game_info :=
  ⟨rfl, (C5_merge_match pA recC rfl).2.1,
    (C5_merge_match pA recC rfl).2.2.2.2.2.2.1⟩

/-- C6: projecting a player to a record with `get_record` and merging that
record back with `update_from_record` returns the player unchanged in every
field. -/
theorem C6_round_trip (p : Player) :
    (p.update_from_record p.get_record).1 = p := by
  unfold Player.update_from_record Player.get_record
  rw [if_neg (by simp)]

/-- C7: `new_from_g15` returns `none` exactly when the identity key, display
name or session token is absent; on success the state is `Active`, team,
latency, kills and deaths take the supplied values or default to
`Unassigned`/0/0/0, and time and loss are fixed at 0. -/
theorem C7_new_from_g15 (g15 : G15Player) (user : Option Nat) :
    (Player.new_from_g15 g15 user = none ↔
      (g15.steamid = none ∨ g15.name = none ∨ g15.userid = none))
  ∧ ∀ p, Player.new_from_g15 g15 user = some p →
      p.game_info.state = PlayerState.Active
    ∧ p.game_info.team = g15.team.getD Team.Unassigned
    ∧ p.game_info.ping = g15.ping.getD 0
    ∧ p.game_info.kills = g15.score.getD 0
    ∧ p.game_info.deaths = g15.deaths.getD 0
    ∧ p.game_info.time = 0
    ∧ p.game_info.loss = 0 := by
  rcases g15 with ⟨sid, nm, uid, tm, pg, sc, dt⟩
  cases sid <;> cases nm <;> cases uid <;>
    simp [Player.new_from_g15, GameInfo.new_from_g15]

/-- C8: `new_from_status` always succeeds; the self-flag is true exactly when
the supplied local identity equals the observation identity key; team starts
`Unassigned` and the kill and death counters start at 0. -/
theorem C8_new_from_status (status : StatusLine) (user : Option Nat) :
    ((Player.new_from_status status user).is_self = true ↔
      user = some status.steamid)
  ∧ (Player.new_from_status status user).game_info.team = Team.Unassigned
  ∧ (Player.new_from_status status user).game_info.kills = 0
  ∧ (Player.new_from_status status user).game_info.deaths = 0 := by
  refine ⟨?_, rfl, rfl, rfl⟩
  cases user with
  | none => simp [Player.new_from_status]
  | some u => simp [Player.new_from_status]

/-- C9: `Team` decoding of an integer other than 0..3 is an error and never a
default, `ProfileVisibility` decoding of an integer other than 1..3 yields
`Private` rather than an error, and in-range integers decode to the variant
with that declared encoding. -/
theorem C9_decode (v : Nat) (i : Int) :
    ((v = 0 ∨ v = 1 ∨ v = 2 ∨ v = 3) →
      ∃ t, Team.try_from v = Except.ok t ∧ Team.toU32 t = v)
  ∧ (¬(v = 0 ∨ v = 1 ∨ v = 2 ∨ v = 3) →
      Team.try_from v = Except.error "Not a valid team value")
  ∧ ((i = 1 ∨ i = 2 ∨ i = 3) →
      ProfileVisibility.encoding (ProfileVisibility.fromInt i) = i)
  ∧ (¬(i = 1 ∨ i = 2 ∨ i = 3) →
      ProfileVisibility.fromInt i = ProfileVisibility.Private) := by
  refine ⟨?_, ?_, ?_, ?_⟩
  · rintro (rfl | rfl | rfl | rfl) <;>
      exact ⟨_, rfl, rfl⟩
  · intro hv
    push_neg at hv
    simp [Team.try_from, hv.1, hv.2.1, hv.2.2.1, hv.2.2.2]
  · rintro (rfl | rfl | rfl) <;> rfl
  · intro hi
    push_neg at hi
    simp [ProfileVisibility.fromInt, hi.1, hi.2.1, hi.2.2]

/-- C10: in every session presence reachable from either constructor by
`next_cycle` and `acknowledge` calls, a staleness counter of 2 or more forces
the state `Disconnected`; in particular `should_prune` implies the state is
`Disconnected`. -/
theorem C10_state_invariant (gi : GameInfo) (h : gi.Reachable) :
    (2 ≤ gi.last_seen → gi.state = PlayerState.Disconnected)
  ∧ (gi.should_prune = true → gi.state = PlayerState.Disconnected) := by
  have main : ∀ g : GameInfo, g.Reachable →
      2 ≤ g.last_seen → g.state = PlayerState.Disconnected := by
    intro g hg
    induction hg with
    | from_g15 g15 g' hsome =>
      intro h2
      cases hu : g15.userid with
      | none => simp [GameInfo.new_from_g15, hu] at hsome
      | some uid =>
        simp [GameInfo.new_from_g15, hu] at hsome
        rw [← hsome] at h2
        simp at h2
    | from_status status =>
      intro h2
      simp [GameInfo.new_from_status] at h2
    | next g' hg' ih =>
      intro h2
      simp only [GameInfo.next_cycle] at h2 ⊢
      rw [if_pos (by omega)]
    | ack g' hg' ih =>
      intro h2
      simp [GameInfo.acknowledge] at h2
  refine ⟨main gi h, fun hp => main gi h ?_⟩
  simp [GameInfo.should_prune] at hp
  omega

/-- C10 (witness): the invariant theorem at the concrete presence obtained
from `stA` by two `next_cycle` calls. -/
theorem C10_witness :
    (GameInfo.new_from_status stA).next_cycle.next_cycle.state
      = PlayerState.Disconnected := by
  have hr : ((GameInfo.new_from_status stA).next_cycle.next_cycle).Reachable :=
    GameInfo.Reachable.next _ (GameInfo.Reachable.next _
      (GameInfo.Reachable.from_status stA))
  exact (C10_state_invariant _ hr).1 (by decide)
